import Mathlib

/-!
Shallow embedding of the wallet-generator repository
(`wallet_generator.py` and `security_isolation.py`).

External collaborators (the `mnemonic`, `eth_account` and `solders`
libraries, `hashlib`, and the file system) are modelled abstractly:
the mnemonic generator, the key-derivation functions and the hash
function are parameters; file-system effects are recorded as an
explicit event trace; the set of already-existing paths is an explicit
argument.  Machine randomness is modelled by indexing the mnemonic
generator with the iteration number.
-/

namespace WalletGen

/-- A wallet record is a Python dict whose keys range over
`address`, `private_key`, `mnemonic`; a key the dict lacks is `none`.
Mirrors the dict literals built by `generate_eth_wallet` /
`generate_sol_wallet` in `wallet_generator.py`. -/
structure WalletRecord where
  address : Option String
  private_key : Option String
  mnemonic : Option String
deriving DecidableEq, Repr

/-- The dict has the field and its value is a non-empty string. -/
def nonEmptyField (o : Option String) : Prop :=
  ∃ s, o = some s ∧ s ≠ ""

/-- Result of `Account.from_mnemonic` (external `eth_account` library):
an address string and the private key rendered by `.key.hex()`. -/
structure EthAccount where
  address : String
  keyHex : String

/-- Result of `Keypair.from_seed` (external `solders` library):
`str(kp.pubkey())` and `kp.secret().hex()`. -/
structure SolKeypair where
  pubkey : String
  secretHex : String

/-- `WalletGenerator.generate_eth_wallet` (wallet_generator.py lines
23-32): generate a mnemonic, derive an account from it, and return the
dict with all three keys present.  `mnemonicGen i` stands for the
fresh random mnemonic drawn at iteration `i`. -/
def generate_eth_wallet (mnemonicGen : Nat → String)
    (fromMnemonic : String → EthAccount) (i : Nat) : WalletRecord :=
  let mnemonic := mnemonicGen i
  let acct := fromMnemonic mnemonic
  { address := some acct.address
    private_key := some acct.keyHex
    mnemonic := some mnemonic }

/-- `WalletGenerator.generate_sol_wallet` (wallet_generator.py lines
34-43).  The seed derivation `mnemo.to_seed(mnemonic)[:32]` is folded
into the abstract `solFromSeed` parameter. -/
def generate_sol_wallet (mnemonicGen : Nat → String)
    (solFromSeed : String → SolKeypair) (i : Nat) : WalletRecord :=
  let mnemonic := mnemonicGen i
  let kp := solFromSeed mnemonic
  { address := some kp.pubkey
    private_key := some kp.secretHex
    mnemonic := some mnemonic }

/-- Python `str.lower()` on the chain-type strings in play (ASCII):
lower-case every character. -/
def toLowerStr (s : String) : String :=
  String.mk (s.data.map Char.toLower)

/-- `WalletGenerator.run` (wallet_generator.py lines 45-62), composed
with `__init__` (lines 18-21) which lower-cases the chain type.  The
loop runs `count` iterations; each appends an eth wallet when the
lowered chain type equals "eth" and otherwise a sol wallet (the
dispatch is a bare if/else with no error branch).  The progress print
and the sleep are side effects with no bearing on the result. -/
def WalletGenerator.run (mnemonicGen : Nat → String)
    (fromMnemonic : String → EthAccount) (solFromSeed : String → SolKeypair)
    (chain_type : String) (count : Nat) : List WalletRecord :=
  (List.range count).map (fun i =>
    if toLowerStr chain_type = "eth" then
      generate_eth_wallet mnemonicGen fromMnemonic i
    else
      generate_sol_wallet mnemonicGen solFromSeed i)

/-! ### Path helpers (POSIX behaviour of the `os.path` library calls
used by `export_to_excel`) -/

/-- Split a character list on a separator character (the semantics of
Python `str.split(sep)` for a one-character separator): the result is
always non-empty. -/
def splitOnChar (sep : Char) : List Char → List (List Char)
  | [] => [[]]
  | c :: rest =>
    match splitOnChar sep rest with
    | [] => [[c]]
    | g :: gs => if c = sep then [] :: g :: gs else (c :: g) :: gs

/-- Join character groups with a separator (inverse of the split). -/
def joinSep (sep : Char) : List (List Char) → List Char
  | [] => []
  | [g] => g
  | g :: gs => g ++ sep :: joinSep sep gs

/-- `os.path.dirname`: everything before the last `/`; empty when the
path has no separator. -/
def dirname (s : String) : String :=
  String.mk (joinSep '/' (splitOnChar '/' s.data).dropLast)

/-- `os.path.basename`: the component after the last `/`. -/
def basename (s : String) : String :=
  String.mk ((splitOnChar '/' s.data).getLastD s.data)

/-- `os.path.join`: an absolute second component discards the first;
otherwise concatenate with a `/` separator (first component not ending
in a separator, as in this program). -/
def joinPath (a b : String) : String :=
  match b.data with
  | '/' :: _ => b
  | _ => if a = "" then b else a ++ "/" ++ b

/-- Python `s.split('.')[0]`: the part before the first dot. -/
def firstDotSplit (s : String) : String :=
  String.mk ((splitOnChar '.' s.data).headD s.data)

/-- `os.path.splitext(s)[1]`: the extension including its dot, empty
when there is no dot. -/
def extOf (s : String) : String :=
  let parts := splitOnChar '.' s.data
  if parts.length ≤ 1 then ""
  else String.mk ('.' :: parts.getLastD [])

/-! ### Export (`export_to_excel`, wallet_generator.py lines 65-130) -/

/-- `pd.DataFrame(wallets)` has a column iff some record carries the
key; `field in df.columns` for `private_key`. -/
def hasPrivateKeyCol (wallets : List WalletRecord) : Bool :=
  wallets.any (fun w => w.private_key.isSome)

/-- Column test for `mnemonic`. -/
def hasMnemonicCol (wallets : List WalletRecord) : Bool :=
  wallets.any (fun w => w.mnemonic.isSome)

/-- Line 89: chain is "eth" when the `private_key` column exists and
every present private key starts with `0x` (pandas `.all()` skips the
records with a missing key), otherwise "sol". -/
def classifyChain (wallets : List WalletRecord) : String :=
  if hasPrivateKeyCol wallets &&
      wallets.all (fun w =>
        match w.private_key with
        | some s => "0x".data.isPrefixOf s.data
        | none => true) then "eth" else "sol"

/-- Line 90: `output_dir = os.path.join(os.path.dirname(filename),
chain_type + "_wallets")`. -/
def outputDirOf (wallets : List WalletRecord) (filename : String) : String :=
  joinPath (dirname filename) (classifyChain wallets ++ "_wallets")

/-- File-system effects performed by the export path and by
`secure_file_write`, in program order. -/
inductive FsEvent
  | mkdir (path : String)
  | writeExcel (path : String) (batch : List WalletRecord)
  | writeFile (path : String) (data : String)
  | chmod (path : String) (mode : Nat)
  | replace (src dst : String)
deriving DecidableEq, Repr

/-- Errors the `try` body of `export_to_excel` can raise.
`malformedRecord f` is the `ValueError` of lines 84-86;
`pathSearchFuel` marks exhaustion of the fuel that bounds the
collision `while` loop (the Python loop would simply keep running). -/
inductive ExportError
  | malformedRecord (field : String)
  | pathSearchFuel
deriving DecidableEq, Repr

/-- The message carried by the raised error (line 86) as the outer
handler would render it. -/
def errMsg : ExportError → String
  | .malformedRecord f => "missing field: " ++ f
  | .pathSearchFuel => "path search did not terminate"

/-- The `while os.path.exists(final_path)` loop of lines 96-100:
starting from candidate `current` with `counter`, while the candidate
exists move to `os.path.join(output_dir, base_name ++ "_" ++ counter
++ ext)`.  Note line 99 joins `output_dir` again even though
`base_name` (line 94) already contains `output_dir`, so for relative
filenames every suffixed candidate carries a doubled directory.
`existing` is the set of paths present on disk; `fuel` bounds the
unbounded Python loop. -/
def collisionLoop (existing : List String) (output_dir base ext : String) :
    Nat → Nat → String → Option String
  | 0, _, _ => none
  | fuel + 1, counter, current =>
    if current ∈ existing then
      collisionLoop existing output_dir base ext fuel (counter + 1)
        (joinPath output_dir (base ++ "_" ++ toString counter ++ ext))
    else
      some current

/-- Lines 93-101: compute `base_name`, `ext`, the starting candidate
`os.path.join(output_dir, filename)`, and run the collision loop. -/
def resolveFinalPath (existing : List String) (fuel : Nat)
    (wallets : List WalletRecord) (filename : String) : Option String :=
  let output_dir := outputDirOf wallets filename
  let base := joinPath output_dir (firstDotSplit (basename filename))
  let ext := extOf filename
  collisionLoop existing output_dir base ext fuel 1
    (joinPath output_dir filename)

/-- The `try` body of `export_to_excel` (lines 79-128): validate the
required columns in order (`private_key` then `mnemonic`), create the
chain sub-directory, resolve a collision-free path, write the
spreadsheet there, and apply `os.chmod(filename, 0o600)` (POSIX
branch; the inner permission `try` is modelled as succeeding).
Returns the file-system events performed so far together with either
the raised error or the final path and the batch written. -/
def exportCore (existing : List String) (fuel : Nat)
    (wallets : List WalletRecord) (filename : String) :
    List FsEvent × Except ExportError (String × List WalletRecord) :=
  if ¬ hasPrivateKeyCol wallets then
    ([], .error (.malformedRecord "private_key"))
  else if ¬ hasMnemonicCol wallets then
    ([], .error (.malformedRecord "mnemonic"))
  else
    let output_dir := outputDirOf wallets filename
    match resolveFinalPath existing fuel wallets filename with
    | none => ([.mkdir output_dir], .error .pathSearchFuel)
    | some final =>
      ([.mkdir output_dir, .writeExcel final wallets, .chmod final 0o600],
        .ok (final, wallets))

/-- Observable outcome of calling `export_to_excel`.  `success` and
`caughtError` are normal returns (the function returns `None` either
way); `raised` is the outcome a re-raising implementation would
produce — the source function never produces it. -/
inductive ExportOutcome
  | success (path : String) (events : List FsEvent)
      (batch : List WalletRecord)
  | caughtError (msg : String)
  | raised (e : ExportError)
deriving DecidableEq, Repr

/-- `export_to_excel` (lines 65-130): the whole body sits in a
`try/except Exception` whose handler prints the error and falls off
the end, so every internal error becomes a normal return carrying the
printed message (lines 129-130). -/
def export_to_excel (existing : List String) (fuel : Nat)
    (wallets : List WalletRecord) (filename : String) : ExportOutcome :=
  match exportCore existing fuel wallets filename with
  | (events, .ok (path, batch)) => .success path events batch
  | (_, .error e) => .caughtError (errMsg e)

/-! ### Permission window semantics

A small state machine over the event trace: for each path holding
data, whether restrictive permissions have been applied to that data.
This formalises the guarantee stated by the specification for the
write algorithm: "no window during which the data sits at its final
name with default (non-restrictive) permissions". -/

/-- Lookup in the path-state association list. -/
def lookupPerm (st : List (String × Bool)) (p : String) : Option Bool :=
  match st with
  | [] => none
  | (q, r) :: rest => if q = p then some r else lookupPerm rest p

/-- Replace or add an entry. -/
def setPerm (st : List (String × Bool)) (p : String) (r : Bool) :
    List (String × Bool) :=
  match st with
  | [] => [(p, r)]
  | (q, r0) :: rest =>
    if q = p then (p, r) :: rest else (q, r0) :: setPerm rest p r

/-- Remove an entry. -/
def removePerm (st : List (String × Bool)) (p : String) :
    List (String × Bool) :=
  match st with
  | [] => []
  | (q, r0) :: rest =>
    if q = p then rest else (q, r0) :: removePerm rest p

/-- Effect of one event on the data/permission state: a fresh write
creates data with default permissions, `chmod` marks the data
restricted, `replace` moves the data with the permissions it already
has. -/
def applyEvent (st : List (String × Bool)) : FsEvent → List (String × Bool)
  | .mkdir _ => st
  | .writeExcel p _ => setPerm st p false
  | .writeFile p _ => setPerm st p false
  | .chmod p _ =>
    match lookupPerm st p with
    | some _ => setPerm st p true
    | none => st
  | .replace src dst =>
    match lookupPerm st src with
    | some r => setPerm (removePerm st src) dst r
    | none => st

/-- There is a point in the trace at which `target` holds data with
default (non-restrictive) permissions. -/
def windowAtFinal (st : List (String × Bool)) (events : List FsEvent)
    (target : String) : Bool :=
  match events with
  | [] => false
  | e :: rest =>
    let st1 := applyEvent st e
    (lookupPerm st1 target == some false) || windowAtFinal st1 rest target

/-! ### security_isolation.py -/

/-- `SecurityIsolation.secure_file_write` (security_isolation.py lines
36-62), POSIX branch, success path: write the data to the sibling
`.tmp` path, chmod the temporary to `0o600`, then `os.replace` it over
the target.  Returns the event trace and the boolean result. -/
def secure_file_write (filepath data : String) : List FsEvent × Bool :=
  let temp_path := filepath ++ ".tmp"
  ([.writeFile temp_path data,
    .chmod temp_path 0o600,
    .replace temp_path filepath], true)

/-- Python dict assignment on a string-keyed association list:
overwrite the entry when present, append otherwise. -/
def dictInsert (l : List (String × String)) (k v : String) :
    List (String × String) :=
  match l with
  | [] => [(k, v)]
  | (k0, v0) :: rest =>
    if k0 = k then (k, v) :: rest else (k0, v0) :: dictInsert rest k v

/-- Dict lookup. -/
def dictGet (l : List (String × String)) (k : String) : Option String :=
  match l with
  | [] => none
  | (k0, v0) :: rest => if k0 = k then some v0 else dictGet rest k

/-- State of a `SecurityIsolation` instance: the `_secure_memory` dict
and the optional secure temp directory. -/
structure SecurityIsolation where
  _secure_memory : List (String × String)
  _temp_dir : Option String
deriving DecidableEq, Repr

/-- `__init__` (lines 18-20). -/
def SecurityIsolation.init : SecurityIsolation :=
  { _secure_memory := [], _temp_dir := none }

/-- `store_in_memory` (lines 64-73): hash the key with SHA-256 (the
external `hashlib` digest is the parameter `sha256hex`) and store the
value verbatim under the hashed key. -/
def store_in_memory (sha256hex : String → String) (s : SecurityIsolation)
    (key value : String) : SecurityIsolation :=
  { s with _secure_memory :=
      dictInsert s._secure_memory (sha256hex key) value }

/-- `get_from_memory` (lines 75-83): hash the key the same way and
look it up; `dict.get` returns `None` when absent. -/
def get_from_memory (sha256hex : String → String) (s : SecurityIsolation)
    (key : String) : Option String :=
  dictGet s._secure_memory (sha256hex key)

/-- `cleanup` (lines 85-98): `self._secure_memory.clear()` empties the
dict; the temp directory is then best-effort removed (a file-system
effect that does not touch the in-memory store, and the `_temp_dir`
attribute itself is not reset). -/
def cleanup (s : SecurityIsolation) : SecurityIsolation :=
  { s with _secure_memory := [] }

/-- Outcome of the `s.connect(('8.8.8.8', 53))` attempt inside the
inner bare `try/except`: either the call returns (connection made) or
it raises (refusal, timeout, or any other exception — the bare
`except:` does not distinguish). -/
inductive ConnectOutcome
  | success
  | raises
deriving DecidableEq, Repr

/-- Runtime facts `check_runtime_environment` observes:
whether `sys` has `gettrace`, whether `sys.gettrace()` is not `None`,
whether an exception is raised before the inner `try` (socket import,
creation or `settimeout` — caught by the outer handler), and the
connect outcome. -/
structure EnvState where
  gettraceAvailable : Bool
  debuggerAttached : Bool
  setupRaises : Bool
  connect : ConnectOutcome
deriving DecidableEq, Repr

/-- `check_runtime_environment` (security_isolation.py lines 101-133):
debugger check first (returns `False` when a tracer hook is detected);
an exception before the inner `try` falls to the outer handler and
returns `False`; a successful connect returns `False`; an exception
from the connect attempt is swallowed by the inner bare `except:` and
returns `True`. -/
def check_runtime_environment (st : EnvState) : Bool :=
  if st.gettraceAvailable && st.debuggerAttached then false
  else if st.setupRaises then false
  else
    match st.connect with
    | .success => false
    | .raises => true

/-! ### Helper lemmas -/

/-- Dict lookup after dict assignment of the same key finds the
assigned value. -/
theorem dictGet_dictInsert (l : List (String × String)) (k v : String) :
    dictGet (dictInsert l k v) k = some v := by
  induction l with
  | nil => simp [dictInsert, dictGet]
  | cons hd tl ih =>
    obtain ⟨k0, v0⟩ := hd
    by_cases h : k0 = k
    · simp [dictInsert, dictGet, h]
    · simp [dictInsert, dictGet, h, ih]

/-- The sibling temporary path differs from the target path. -/
theorem tmp_path_ne (filepath : String) : filepath ++ ".tmp" ≠ filepath := by
  intro h
  have hl := congrArg String.length h
  rw [String.length_append] at hl
  have h4 : String.length ".tmp" = 4 := rfl
  omega

/-- Characterisation of a successful run of the export body: the
columns validated, a collision-free path was found, and the trace is
mkdir, spreadsheet write at the final path, chmod of the final path —
in that order. -/
theorem exportCore_ok (existing : List String) (fuel : Nat)
    (wallets : List WalletRecord) (filename : String)
    (events : List FsEvent) (final : String) (batch : List WalletRecord)
    (h : exportCore existing fuel wallets filename =
      (events, .ok (final, batch))) :
    events = [.mkdir (outputDirOf wallets filename),
      .writeExcel final wallets, .chmod final 384] ∧
    batch = wallets ∧
    resolveFinalPath existing fuel wallets filename = some final ∧
    hasPrivateKeyCol wallets = true ∧ hasMnemonicCol wallets = true := by
  by_cases h1 : hasPrivateKeyCol wallets
  case neg => simp [exportCore, h1] at h
  by_cases h2 : hasMnemonicCol wallets
  case neg => simp [exportCore, h1, h2] at h
  cases hr : resolveFinalPath existing fuel wallets filename with
  | none => simp [exportCore, h1, h2, hr] at h
  | some f =>
    simp only [exportCore, h1, h2, hr, if_pos, if_neg, not_true_eq_false,
      ite_false, ite_true, not_false_eq_true, Prod.mk.injEq] at h
    obtain ⟨hev, hok⟩ := h
    obtain ⟨hf, hb⟩ := Prod.mk.injEq .. ▸ Except.ok.inj hok
    subst hf hb
    exact ⟨hev.symm, rfl, rfl, h1, h2⟩

/-! ### Concrete instances used by witnesses and counterexamples -/

/-- A concrete mnemonic generator standing in for `mnemo.generate`. -/
def mgW : Nat → String := fun _ => "test words"

/-- A concrete eth derivation standing in for `Account.from_mnemonic`. -/
def fmW : String → EthAccount :=
  fun _ => { address := "0xA", keyHex := "0xK" }

/-- A concrete sol derivation standing in for `Keypair.from_seed`. -/
def ssW : String → SolKeypair :=
  fun _ => { pubkey := "P", secretHex := "S" }

/-- A record carrying all three fields. -/
def wFull : WalletRecord :=
  { address := some "0xA", private_key := some "0xK", mnemonic := some "m" }

/-- A record with `mnemonic` missing. -/
def wNoMnemonic : WalletRecord :=
  { address := some "0xB", private_key := some "0xL", mnemonic := none }

/-- A record with `address` missing. -/
def wNoAddr : WalletRecord :=
  { address := none, private_key := some "0xZ", mnemonic := some "mm" }

/-! ### Claim theorems -/

/-- C1: for every chain in eth/sol and every count > 0,
`WalletGenerator.run` returns an ordered sequence of exactly `count`
wallet records, each with non-empty address, private_key and mnemonic
fields (given that the external providers return non-empty strings). -/
theorem run_returns_count_nonempty_records
    (mnemonicGen : Nat → String) (fromMnemonic : String → EthAccount)
    (solFromSeed : String → SolKeypair) (chain : String) (count : Nat)
    (_hchain : toLowerStr chain = "eth" ∨ toLowerStr chain = "sol")
    (_hcount : 0 < count)
    (hm : ∀ i, mnemonicGen i ≠ "")
    (he : ∀ m, (fromMnemonic m).address ≠ "" ∧ (fromMnemonic m).keyHex ≠ "")
    (hs : ∀ m, (solFromSeed m).pubkey ≠ "" ∧ (solFromSeed m).secretHex ≠ "") :
    (WalletGenerator.run mnemonicGen fromMnemonic solFromSeed chain count).length
        = count ∧
    ∀ w ∈ WalletGenerator.run mnemonicGen fromMnemonic solFromSeed chain count,
      nonEmptyField w.address ∧ nonEmptyField w.private_key ∧
        nonEmptyField w.mnemonic := by
  constructor
  · simp [WalletGenerator.run]
  · intro w hw
    simp only [WalletGenerator.run, List.mem_map, List.mem_range] at hw
    obtain ⟨i, -, rfl⟩ := hw
    by_cases hc : toLowerStr chain = "eth"
    · simp only [if_pos hc, generate_eth_wallet, nonEmptyField]
      exact ⟨⟨_, rfl, (he _).1⟩, ⟨_, rfl, (he _).2⟩, ⟨_, rfl, hm i⟩⟩
    · simp only [if_neg hc, generate_sol_wallet, nonEmptyField]
      exact ⟨⟨_, rfl, (hs _).1⟩, ⟨_, rfl, (hs _).2⟩, ⟨_, rfl, hm i⟩⟩

/-- C1 witness: the hypotheses are satisfiable at concrete providers,
chain "eth" and count 2. -/
theorem run_returns_count_nonempty_records_witness :
    (WalletGenerator.run mgW fmW ssW "eth" 2).length = 2 :=
  (run_returns_count_nonempty_records mgW fmW ssW "eth" 2
    (Or.inl (by decide)) (by decide)
    (fun i => by simp only [mgW]; decide)
    (fun m => by simp only [fmW]; exact ⟨by decide, by decide⟩)
    (fun m => by simp only [ssW]; exact ⟨by decide, by decide⟩)).1

/-- C2 counterexample: `WalletGenerator.run` on the out-of-range chain
"btc" raises nothing and produces a wallet record (a sol wallet), so
the generator does not fail with an InvalidChain error and does
produce records for such an input. -/
theorem run_invalid_chain_produces_records :
    WalletGenerator.run mgW fmW ssW "btc" 1 =
      [{ address := some "P", private_key := some "S",
         mnemonic := some "test words" }] := by decide

/-- C2 amended: for a chain whose lower-casing is not "eth" (in
particular any input outside eth/sol), `WalletGenerator.run` raises no
error and generates `count` sol wallets; chain validation happens only
at the CLI boundary, not in the generator. -/
theorem run_invalid_chain_amended
    (mnemonicGen : Nat → String) (fromMnemonic : String → EthAccount)
    (solFromSeed : String → SolKeypair) (chain : String) (count : Nat)
    (hchain : toLowerStr chain ≠ "eth") :
    WalletGenerator.run mnemonicGen fromMnemonic solFromSeed chain count =
      (List.range count).map (generate_sol_wallet mnemonicGen solFromSeed) := by
  simp [WalletGenerator.run, hchain]

/-- C2 amended witness at chain "btc" and count 2. -/
theorem run_invalid_chain_amended_witness :
    WalletGenerator.run mgW fmW ssW "btc" 2 =
      (List.range 2).map (generate_sol_wallet mgW ssW) :=
  run_invalid_chain_amended mgW fmW ssW "btc" 2 (by decide)

/-- C3 counterexample: on a failing batch (here the empty batch, whose
DataFrame lacks the `private_key` column) `export_to_excel` returns
normally with a caught-and-printed error instead of re-raising to its
caller. -/
theorem export_failure_swallowed :
    export_to_excel [] 2 [] "w.xlsx" =
      .caughtError (errMsg (.malformedRecord "private_key")) := by rfl

/-- C3 amended: every error raised inside the export body is caught by
the `try/except Exception` of `export_to_excel`, which returns
normally carrying the printed message; no error is ever re-raised to
the caller. -/
theorem export_errors_caught_amended
    (existing : List String) (fuel : Nat) (wallets : List WalletRecord)
    (filename : String) (events : List FsEvent) (e : ExportError)
    (h : exportCore existing fuel wallets filename = (events, .error e)) :
    export_to_excel existing fuel wallets filename =
        .caughtError (errMsg e) ∧
    ∀ er, export_to_excel existing fuel wallets filename ≠ .raised er := by
  constructor
  · simp [export_to_excel, h]
  · intro er
    simp [export_to_excel, h]

/-- C3 amended witness at a concrete failing input. -/
theorem export_errors_caught_amended_witness :
    export_to_excel [] 2 [] "m.xlsx" =
      .caughtError (errMsg (.malformedRecord "private_key")) :=
  (export_errors_caught_amended [] 2 [] "m.xlsx" []
    (.malformedRecord "private_key") rfl).1

/-- C4 counterexample: a batch in which some (but not every) record is
missing the `mnemonic` field passes the column-level validation and is
exported — a spreadsheet is written — instead of failing with the
missing-field error. -/
theorem export_partial_missing_mnemonic_still_exported :
    export_to_excel [] 2 [wFull, wNoMnemonic] "w2.xlsx" =
      .success "eth_wallets/w2.xlsx"
        [.mkdir "eth_wallets",
         .writeExcel "eth_wallets/w2.xlsx" [wFull, wNoMnemonic],
         .chmod "eth_wallets/w2.xlsx" 384]
        [wFull, wNoMnemonic] := by rfl

/-- C4 amended: the validation is per column, not per record — export
fails with the MalformedRecord error exactly when a required field is
absent from every record of the batch.  When every record lacks
`private_key`, or every record lacks `mnemonic`, the error is raised
with an empty file-system trace: validation precedes any directory or
file creation, so no file is written. -/
theorem export_missing_field_amended (existing : List String)
    (fuel : Nat) (wallets : List WalletRecord) (filename : String) :
    (hasMnemonicCol wallets = false ↔ ∀ w ∈ wallets, w.mnemonic = none) ∧
    (hasPrivateKeyCol wallets = false →
      exportCore existing fuel wallets filename =
        ([], .error (.malformedRecord "private_key"))) ∧
    (hasPrivateKeyCol wallets = true → hasMnemonicCol wallets = false →
      exportCore existing fuel wallets filename =
        ([], .error (.malformedRecord "mnemonic"))) := by
  refine ⟨?_, ?_, ?_⟩
  · simp [hasMnemonicCol, List.any_eq_false, Option.isSome_iff_ne_none]
  · intro h1
    simp [exportCore, h1]
  · intro h1 h2
    simp [exportCore, h1, h2]

/-- C4 amended witness: a batch whose single record lacks `mnemonic`
fails with the mnemonic MalformedRecord error and an empty trace. -/
theorem export_missing_field_amended_witness :
    exportCore [] 2 [wNoMnemonic] "x.xlsx" =
      ([], .error (.malformedRecord "mnemonic")) :=
  (export_missing_field_amended [] 2 [wNoMnemonic] "x.xlsx").2.2 rfl rfl

/-- C5 counterexample: a concrete successful export writes the
spreadsheet directly at its final name and only afterwards applies
`chmod`, so there is a point in the trace at which the data sits at
its final name with default permissions; moreover the trace contains
no rename (`os.replace`) step at all. -/
theorem export_permission_window_exists :
    exportCore [] 2 [wFull] "e.xlsx" =
      ([.mkdir "eth_wallets", .writeExcel "eth_wallets/e.xlsx" [wFull],
        .chmod "eth_wallets/e.xlsx" 384],
        .ok ("eth_wallets/e.xlsx", [wFull])) ∧
    windowAtFinal []
      [.mkdir "eth_wallets", .writeExcel "eth_wallets/e.xlsx" [wFull],
        .chmod "eth_wallets/e.xlsx" 384] "eth_wallets/e.xlsx" = true ∧
    ([FsEvent.mkdir "eth_wallets",
      FsEvent.writeExcel "eth_wallets/e.xlsx" [wFull],
      FsEvent.chmod "eth_wallets/e.xlsx" 384].all fun ev =>
        match ev with
        | .replace _ _ => false
        | _ => true) = true :=
  ⟨rfl, by decide, by decide⟩

/-- C5 amended: `SecurityIsolation.secure_file_write` does follow the
atomic-by-rename ordering — write the sibling temporary, chmod the
temporary, then replace the target — and its trace has no window at
the final name; but `export_to_excel` writes directly to the final
path and chmods afterwards, so every successful export has a window
during which the data sits at its final name with default
permissions. -/
theorem secure_write_atomic_amended :
    (∀ filepath data : String,
      secure_file_write filepath data =
        ([.writeFile (filepath ++ ".tmp") data,
          .chmod (filepath ++ ".tmp") 384,
          .replace (filepath ++ ".tmp") filepath], true) ∧
      windowAtFinal [] (secure_file_write filepath data).1 filepath
        = false) ∧
    (∀ (existing : List String) (fuel : Nat) (wallets : List WalletRecord)
        (filename final : String) (events : List FsEvent)
        (batch : List WalletRecord),
      exportCore existing fuel wallets filename =
        (events, .ok (final, batch)) →
      windowAtFinal [] events final = true) := by
  constructor
  · intro filepath data
    have hne := tmp_path_ne filepath
    refine ⟨rfl, ?_⟩
    simp [secure_file_write, windowAtFinal, applyEvent, setPerm,
      lookupPerm, removePerm, hne]
  · intro existing fuel wallets filename final events batch h
    obtain ⟨hev, -, -, -, -⟩ :=
      exportCore_ok existing fuel wallets filename events final batch h
    subst hev
    simp [windowAtFinal, applyEvent, setPerm, lookupPerm]

/-- C5 amended witness: a concrete successful export exhibits the
window at the final name. -/
theorem secure_write_atomic_amended_witness :
    windowAtFinal []
      [.mkdir "eth_wallets", .writeExcel "eth_wallets/s.xlsx" [wFull],
       .chmod "eth_wallets/s.xlsx" 384] "eth_wallets/s.xlsx" = true :=
  secure_write_atomic_amended.2 [] 2 [wFull] "s.xlsx" "eth_wallets/s.xlsx"
    [.mkdir "eth_wallets", .writeExcel "eth_wallets/s.xlsx" [wFull],
     .chmod "eth_wallets/s.xlsx" 384] [wFull] rfl

/-- C6: evaluation of the code at the failing input.  A second export
of the relative filename "t.xlsx" while the first export's artifact
`eth_wallets/t.xlsx` exists resolves the doubly-joined candidate
`eth_wallets/eth_wallets/t_1.xlsx` (line 99 joins `output_dir` onto a
base name that already contains it).  Its parent directory
`eth_wallets/eth_wallets` is not the directory the export created
(`makedirs` made only `eth_wallets`), so the spreadsheet write at that
path raises, the outer handler swallows the error, and the second
export persists nothing. -/
theorem export_second_collision_resolves_nested_path :
    resolveFinalPath ["eth_wallets/t.xlsx"] 3 [wFull] "t.xlsx" =
      some "eth_wallets/eth_wallets/t_1.xlsx" ∧
    dirname "eth_wallets/eth_wallets/t_1.xlsx" = "eth_wallets/eth_wallets" ∧
    outputDirOf [wFull] "t.xlsx" = "eth_wallets" ∧
    "eth_wallets/eth_wallets" ≠ "eth_wallets" := by decide

/-- C9: a batch whose records all lack the `address` field (while the
`private_key` and `mnemonic` columns are present) does not raise the
missing-field error: the export proceeds and writes the file. -/
theorem export_ignores_missing_address (existing : List String)
    (fuel : Nat) (wallets : List WalletRecord) (filename p : String)
    (_haddr : ∀ w ∈ wallets, w.address = none)
    (hpk : hasPrivateKeyCol wallets = true)
    (hmn : hasMnemonicCol wallets = true)
    (hres : resolveFinalPath existing fuel wallets filename = some p) :
    exportCore existing fuel wallets filename =
      ([.mkdir (outputDirOf wallets filename), .writeExcel p wallets,
        .chmod p 384], .ok (p, wallets)) := by
  simp [exportCore, hpk, hmn, hres]

/-- C9 witness: a concrete one-record batch with no `address` field is
exported. -/
theorem export_ignores_missing_address_witness :
    exportCore [] 2 [wNoAddr] "a.xlsx" =
      ([.mkdir (outputDirOf [wNoAddr] "a.xlsx"),
        .writeExcel "eth_wallets/a.xlsx" [wNoAddr],
        .chmod "eth_wallets/a.xlsx" 384],
        .ok ("eth_wallets/a.xlsx", [wNoAddr])) :=
  export_ignores_missing_address [] 2 [wNoAddr] "a.xlsx"
    "eth_wallets/a.xlsx" (by intro w hw; fin_cases hw; rfl)
    rfl rfl (by decide)

/-- C7: after put, get on the same key returns the stored value; after
teardown (`cleanup`), get returns none for every key. -/
theorem secure_store_put_get_teardown :
    (∀ (sha256hex : String → String) (s : SecurityIsolation) (k v : String),
      get_from_memory sha256hex (store_in_memory sha256hex s k v) k
        = some v) ∧
    (∀ (sha256hex : String → String) (s : SecurityIsolation) (k : String),
      get_from_memory sha256hex (cleanup s) k = none) := by
  constructor
  · intro hsh s k v
    simp [get_from_memory, store_in_memory, dictGet_dictInsert]
  · intro hsh s k
    simp [get_from_memory, cleanup, dictGet]

/-- C10: storing twice under the same key overwrites — the second
value wins on lookup. -/
theorem secure_store_overwrite
    (sha256hex : String → String) (s : SecurityIsolation)
    (k v1 v2 : String) :
    get_from_memory sha256hex
      (store_in_memory sha256hex (store_in_memory sha256hex s k v1) k v2) k
      = some v2 := by
  simp [get_from_memory, store_in_memory, dictGet_dictInsert]

/-- C8 counterexample: with no debugger and no setup failure, an
exception raised by the connect attempt itself (the `.raises` outcome,
covering refusals, timeouts and any other exception hitting the inner
bare `except:`) makes `check_runtime_environment` return `true`, so an
exception during the checks does not always yield `false`. -/
theorem check_runtime_exception_returns_true :
    check_runtime_environment
      { gettraceAvailable := false, debuggerAttached := false,
        setupRaises := false, connect := .raises } = true := by rfl

/-- C8 amended: a detected debugger hook yields `false` regardless of
the network outcome; an exception raised before the connect attempt
yields `false`; but an exception raised by the connect attempt itself
is caught by the inner bare `except:` and yields `true`. -/
theorem check_runtime_env_amended :
    (∀ st : EnvState, st.gettraceAvailable = true →
      st.debuggerAttached = true → check_runtime_environment st = false) ∧
    (∀ st : EnvState, st.setupRaises = true →
      check_runtime_environment st = false) ∧
    (∀ st : EnvState, (st.gettraceAvailable && st.debuggerAttached) = false →
      st.setupRaises = false → st.connect = .raises →
      check_runtime_environment st = true) := by
  refine ⟨?_, ?_, ?_⟩ <;> intro st <;>
    obtain ⟨g, d, su, c⟩ := st <;> cases g <;> cases d <;> cases su <;>
    cases c <;> simp [check_runtime_environment]

/-- C8 amended witness at three concrete environment states. -/
theorem check_runtime_env_amended_witness :
    check_runtime_environment
      { gettraceAvailable := true, debuggerAttached := true,
        setupRaises := false, connect := .success } = false ∧
    check_runtime_environment
      { gettraceAvailable := false, debuggerAttached := false,
        setupRaises := true, connect := .success } = false ∧
    check_runtime_environment
      { gettraceAvailable := false, debuggerAttached := true,
        setupRaises := false, connect := .raises } = true :=
  ⟨check_runtime_env_amended.1 _ rfl rfl,
   check_runtime_env_amended.2.1 _ rfl,
   check_runtime_env_amended.2.2 _ rfl rfl rfl⟩

end WalletGen
